import Mathlib

/-!
Verification of the jira-bugzilla-integration synchronization engine.

Shallow embedding of:
- `src/jbi/actions/default.py`: the step pipeline (`DefaultExecutor.__call__`,
  `maybe_create_comment`, `maybe_create_issue`, `maybe_update_issue`,
  `maybe_add_jira_comments_for_changes`);
- `src/jbi/services/jira.py`: `fatal_code`, `JiraService.create_jira_issue`,
  `JiraService.delete_jira_issue_if_duplicate`,
  `JiraService.add_jira_comments_for_changes`,
  `JiraService.update_issue_components`.

Python strings are modelled as Lean `String` (slicing `s[:n]` becomes `take`
on the character list), Python `None` as `Option`, dict payload fields with a
default of `[]` as list-valued fields.  Remote calls are modelled as pure
data: the environment (`World`) supplies the values the remote services would
return, and every call a step issues is recorded in an ordered trace; the
opaque response of a call is modelled by the call descriptor itself.
-/

namespace JBI

/-- The `jbi.Operation` enumeration. -/
inductive Operation where
  | IGNORE
  | CREATE
  | UPDATE
  | COMMENT
  | DELETE
  | LINK
deriving DecidableEq, Repr

/-- One entry of `event.changes`: a per-field change (field name, added and
removed values), from the webhook event model. -/
structure BugChange where
  field : String
  added : String
  removed : String
deriving DecidableEq, Repr

/-- Modelled from the spec: `BugzillaWebhookEvent` (jbi/models.py, not in
src). `target` is the event target kind (`"bug"` or `"comment"`), `user` the
login of the acting user (`None` when absent), `changes` the optional ordered
change list. -/
structure BugzillaWebhookEvent where
  target : String
  user : Option String
  changes : Option (List BugChange)
deriving DecidableEq, Repr

/-- Modelled from the spec: `BugzillaBug` (jbi/models.py, not in src).
`comment` is the optional inline comment payload body; `linked_issue_key` is
the result of `BugzillaBug.extract_from_see_also()` for the configured
project: the target-issue key encoded in the see-also list of the bug, or
`none` when no key is encoded there. -/
structure BugzillaBug where
  id : Nat
  summary : String
  status : String
  resolution : String
  assigned_to : String
  whiteboard : String
  comment : Option String
  linked_issue_key : Option String
deriving DecidableEq, Repr

/-- Python truthiness of an optional string (`None` and `""` are falsy):
used where the code writes `if not linked_issue_key`. -/
def optTruthy : Option String → Bool
  | none => false
  | some s => s != ""

/-- Modelled from the spec: `BugzillaWebhookEvent.changed_fields()`
(jbi/models.py, not in src): the ordered list of changed field names of the
event, `None` when the event carries no change list. -/
def BugzillaWebhookEvent.changed_fields (e : BugzillaWebhookEvent) : Option (List String) :=
  e.changes.map (fun cs => cs.map (·.field))

/-- The body of one structured change comment built by
`JiraService.add_jira_comments_for_changes`. -/
inductive ChangeComment where
  | statusChange (modified_by resolution status : String)
  | assigneeChange (assignee : String)
deriving DecidableEq, Repr

/-- A remote call issued through a tracker client.  Doubles as the (opaque)
response payload of that call, as accumulated by the pipeline. -/
inductive RemoteCall where
  | getComments (bugId : Nat)
  | createIssue (project summary : String) (description : String) (sync : Bool)
  | getBug (bugId : Nat)
  | deleteIssue (key : String)
  | addLinkToJira (bugId : Nat) (key : String)
  | addLinkToBugzilla (key : String) (bugId : Nat)
  | updateIssue (key : String) (sync : Bool)
  | addComment (key commenter body : String)
  | addChangeComment (key : String) (body : ChangeComment)
  | updateComponents (key : String) (componentIds : List String)
deriving DecidableEq, Repr

/-- Is this call an issue-creation call?  Used to state that a run issued no
create call. -/
def RemoteCall.isCreateIssue : RemoteCall → Bool
  | .createIssue _ _ _ _ => true
  | _ => false

/-- `JiraContext` (the `jira` field of the action context): optional linked
issue key and the configured project key. -/
structure JiraContext where
  issue : Option String
  project : String
deriving DecidableEq, Repr

/-- `jbi.models.ActionContext` as threaded through the default action. -/
structure ActionContext where
  event : BugzillaWebhookEvent
  bug : BugzillaBug
  operation : Operation
  jira : JiraContext
  extra_changed_fields : String
deriving DecidableEq, Repr

/-- Environment for one pipeline run: the values the remote services return
when called (`bugzilla.get_comments`, the key answered by
`jira.create_jira_issue`, the bug answered by `bugzilla.get_bug` after
creation). -/
structure World where
  comments : List String
  created_key : String
  refetched_bug : BugzillaBug
deriving Repr

/-- `JIRA_DESCRIPTION_CHAR_LIMIT` from jbi/services/jira.py. -/
def JIRA_DESCRIPTION_CHAR_LIMIT : Nat := 32767

/-- The slice `description[:JIRA_DESCRIPTION_CHAR_LIMIT]` applied by
`JiraService.create_jira_issue` to the description field. -/
def truncateDescription (s : String) : String :=
  ⟨s.data.take JIRA_DESCRIPTION_CHAR_LIMIT⟩

/-- The `fields` dict built by `JiraService.create_jira_issue`. -/
structure IssueFields where
  summary : String
  issuetype : String
  description : String
  project : String
deriving DecidableEq, Repr

/-- `JiraService.create_jira_issue` field construction: summary from the bug,
the configured issue type, the truncated description, the project key. -/
def create_issue_fields (ctx : ActionContext) (description : String)
    (issue_type : String) : IssueFields :=
  { summary := ctx.bug.summary
    issuetype := issue_type
    description := truncateDescription description
    project := ctx.jira.project }

/-- `JiraService.delete_jira_issue_if_duplicate`: given the key of the issue
just created (`context.jira.issue`) and the re-fetched bug, delete the created
issue exactly when the re-fetched bug encodes a key (`is not None`) different
from the created one; return the delete response, else `None`. -/
def delete_jira_issue_if_duplicate (issue_key : String)
    (latest_bug : BugzillaBug) : Option RemoteCall :=
  let jira_key_in_bugzilla := latest_bug.linked_issue_key
  let _duplicate_creation_event :=
    match jira_key_in_bugzilla with
    | none => false
    | some k => issue_key != k
  if _duplicate_creation_event then
    some (RemoteCall.deleteIssue issue_key)
  else
    none

/-- `default.maybe_create_comment`: create a Jira comment if the event is a
comment event on a bug with a linked issue and a comment payload. -/
def maybe_create_comment (ctx : ActionContext) :
    ActionContext × List RemoteCall × List RemoteCall :=
  if ctx.event.target != "comment" || !(optTruthy ctx.jira.issue) then
    (ctx, [], [])
  else
    match ctx.bug.comment with
    | none => (ctx, [], [])
    | some body =>
      let ctx := { ctx with operation := Operation.COMMENT }
      let commenter := ctx.event.user.getD "unknown"
      let key := ctx.jira.issue.getD ""
      let resp := RemoteCall.addComment key commenter body
      (ctx, [resp], [resp])

/-- `default.maybe_create_issue`: create the Jira issue (description = first
fetched comment, or empty), re-fetch the bug, roll back (delete) on a
detected duplicate, otherwise add the two cross links.  Returns (new context,
responses, all remote calls issued in order). -/
def maybe_create_issue (sync_whiteboard_labels : Bool) (w : World)
    (ctx : ActionContext) : ActionContext × List RemoteCall × List RemoteCall :=
  if ctx.event.target != "bug" || optTruthy ctx.jira.issue
      || ctx.operation != Operation.IGNORE then
    (ctx, [], [])
  else
    let ctx := { ctx with operation := Operation.CREATE }
    let description := (w.comments.head?).getD ""
    let createCall := RemoteCall.createIssue ctx.jira.project ctx.bug.summary
      (truncateDescription description) sync_whiteboard_labels
    let issue_key := w.created_key
    let ctx := { ctx with jira := { ctx.jira with issue := some issue_key } }
    let latest_bug := w.refetched_bug
    let fetchCalls := [RemoteCall.getComments ctx.bug.id, createCall,
      RemoteCall.getBug ctx.bug.id]
    match delete_jira_issue_if_duplicate issue_key latest_bug with
    | some del => (ctx, [del], fetchCalls ++ [del])
    | none =>
      let bz := RemoteCall.addLinkToJira ctx.bug.id issue_key
      let jr := RemoteCall.addLinkToBugzilla issue_key ctx.bug.id
      (ctx, [bz, jr], fetchCalls ++ [bz, jr])

/-- `default.maybe_update_issue`: update the Jira issue when a bug with a
linked issue is modified; records the changed field names in `extra`. -/
def maybe_update_issue (sync_whiteboard_labels : Bool)
    (ctx : ActionContext) : ActionContext × List RemoteCall × List RemoteCall :=
  if ctx.event.target != "bug" || !(optTruthy ctx.jira.issue)
      || ctx.operation != Operation.IGNORE then
    (ctx, [], [])
  else
    let changed_fields := (ctx.event.changed_fields).getD []
    let ctx := { ctx with
      operation := Operation.UPDATE,
      extra_changed_fields := String.intercalate ", " changed_fields }
    let key := ctx.jira.issue.getD ""
    let resp := RemoteCall.updateIssue key sync_whiteboard_labels
    (ctx, [resp], [resp])

/-- Comment-list construction of `JiraService.add_jira_comments_for_changes`:
one structured comment per change whose field is a status/resolution field or
an assignee field, in event change order. -/
def commentsForChanges (bug : BugzillaBug) (user : String)
    (changes : List BugChange) : List ChangeComment :=
  changes.flatMap (fun change =>
    (if change.field = "status" ∨ change.field = "resolution" then
      [ChangeComment.statusChange user bug.resolution bug.status]
    else []) ++
    (if change.field = "assigned_to" ∨ change.field = "assignee" then
      [ChangeComment.assigneeChange bug.assigned_to]
    else []))

/-- `JiraService.add_jira_comments_for_changes`: post each built comment to
the linked issue, returning the responses in call order. -/
def add_jira_comments_for_changes (ctx : ActionContext) : List RemoteCall :=
  let user := ctx.event.user.getD "unknown"
  let key := ctx.jira.issue.getD ""
  (commentsForChanges ctx.bug user ((ctx.event.changes).getD [])).map
    (fun c => RemoteCall.addChangeComment key c)

/-- `default.maybe_add_jira_comments_for_changes`: runs only when the
operation is UPDATE; never modifies the context. -/
def maybe_add_jira_comments_for_changes (ctx : ActionContext) :
    ActionContext × List RemoteCall × List RemoteCall :=
  if ctx.operation != Operation.UPDATE then
    (ctx, [], [])
  else
    let resps := add_jira_comments_for_changes ctx
    (ctx, resps, resps)

/-- The initial `ActionContext` built at the top of
`DefaultExecutor.__call__`: operation IGNORE, linked issue key extracted from
the see-also list of the bug. -/
def initialContext (jira_project_key : String) (bug : BugzillaBug)
    (event : BugzillaWebhookEvent) : ActionContext :=
  { event := event
    bug := bug
    operation := Operation.IGNORE
    jira := { issue := bug.linked_issue_key, project := jira_project_key }
    extra_changed_fields := "" }

/-- Result of one pipeline run (`DefaultExecutor.__call__`): the handled flag
and accumulated responses returned to the caller, plus (for auditing the run)
the per-step responses, the full ordered call trace, the operation after each
step, and the final context. -/
structure RunResult where
  handled : Bool
  responses : List RemoteCall
  commentResponses : List RemoteCall
  createResponses : List RemoteCall
  updateResponses : List RemoteCall
  changesResponses : List RemoteCall
  calls : List RemoteCall
  opsTrace : List Operation
  finalCtx : ActionContext
deriving Repr

/-- `DefaultExecutor.__call__`: build the initial context with operation
IGNORE and the see-also-extracted issue key, run the four steps in order, and
return `(not is_noop, concatenated responses)`. -/
def runPipeline (jira_project_key : String) (sync_whiteboard_labels : Bool)
    (bug : BugzillaBug) (event : BugzillaWebhookEvent) (w : World) : RunResult :=
  let ctx0 := initialContext jira_project_key bug event
  let r1 := maybe_create_comment ctx0
  let r2 := maybe_create_issue sync_whiteboard_labels w r1.1
  let r3 := maybe_update_issue sync_whiteboard_labels r2.1
  let r4 := maybe_add_jira_comments_for_changes r3.1
  let is_noop := r4.1.operation == Operation.IGNORE
  { handled := !is_noop
    responses := r1.2.1 ++ r2.2.1 ++ r3.2.1 ++ r4.2.1
    commentResponses := r1.2.1
    createResponses := r2.2.1
    updateResponses := r3.2.1
    changesResponses := r4.2.1
    calls := r1.2.2 ++ r2.2.2 ++ r3.2.2 ++ r4.2.2
    opsTrace := [r1.1.operation, r2.1.operation, r3.1.operation, r4.1.operation]
    finalCtx := r4.1 }

/-- A trace of operation values advances at most once away from the given
current value: each change steps from IGNORE to a non-IGNORE value and every
later entry repeats that value. -/
def advancesAtMostOnce : Operation → List Operation → Bool
  | _, [] => true
  | cur, o :: rest =>
    if o == cur then advancesAtMostOnce cur rest
    else if cur == Operation.IGNORE && o != Operation.IGNORE then
      advancesAtMostOnce o rest
    else false

/-- `fatal_code` input from jbi/services/jira.py: an error that may carry an
HTTP response with a status code (`exc.response.status_code`); `status` is
`none` when the exception has no `response` attribute (connectivity errors,
`ApiError`). -/
structure RemoteError where
  status : Option Nat
deriving DecidableEq, Repr

/-- `jira.fatal_code`: 4xx responses are fatal (no retry); errors without a
response attribute are not fatal (the `AttributeError` branch). -/
def fatal_code (exc : RemoteError) : Bool :=
  match exc.status with
  | some code => decide (400 ≤ code) && decide (code < 500)
  | none => false

/-- Modelled from the spec: the retry wrapper (`instrument` in
jbi/services/common.py, not in src).  Per spec section 4.5: on any transient
failure retry with backoff up to a bounded attempt count; a fatal error
(`fatal_code`) propagates immediately without retry.  `call i` is the outcome
of attempt `i`; `fuel` is the number of retries still allowed.  Returns the
final outcome and the total number of attempts made. -/
def retryLoop (call : Nat → Except RemoteError α) :
    Nat → Nat → Except RemoteError α × Nat
  | attempt, fuel =>
    match call attempt with
    | .ok a => (.ok a, attempt + 1)
    | .error e =>
      if fatal_code e then (.error e, attempt + 1)
      else
        match fuel with
        | 0 => (.error e, attempt + 1)
        | n + 1 => retryLoop call (attempt + 1) n

/-- Modelled from the spec: run a remote call under the retry wrapper with a
configured maximum attempt count (at least one attempt is always made). -/
def runWithRetry (maxTries : Nat) (call : Nat → Except RemoteError α) :
    Except RemoteError α × Nat :=
  retryLoop call 0 (maxTries - 1)

/-- A non-list create-call response item: a plain value (issue key) or a dict
(with optional `errors` / `errorMessages` lists, absent lists modelled as
`[]`). -/
inductive JiraItem where
  | str (s : String)
  | dict (errors errorMessages : List String) (key : String)
deriving DecidableEq, Repr

/-- A create-call response payload as returned by the remote API: a single
item or a list of items. -/
inductive JiraPayload where
  | item (i : JiraItem)
  | list (items : List JiraItem)
deriving DecidableEq, Repr

/-- Outcome of the response handling in `JiraService.create_jira_issue`. -/
inductive CreateOutcome where
  | ok (resp : JiraItem)
  | createError (msg : String)
  | indexError
deriving DecidableEq, Repr

/-- Is the outcome a raised `JiraCreateError`? -/
def CreateOutcome.isCreateError : CreateOutcome → Bool
  | .createError _ => true
  | _ => false

/-- The response handling of `JiraService.create_jira_issue`: if a list is
returned take its first item (IndexError on an empty list); if (then) a dict,
join `errors` and `errorMessages` with commas and raise `JiraCreateError`
when either joined string is non-empty; otherwise return the payload. -/
def processCreateResponse (resp : JiraPayload) : CreateOutcome :=
  let unwrapped : Option JiraItem :=
    match resp with
    | .list [] => none
    | .list (x :: _) => some x
    | .item r => some r
  match unwrapped with
  | none => CreateOutcome.indexError
  | some r =>
    match r with
    | .dict errors errorMessages key =>
      let errs := String.intercalate "," errors
      let msgs := String.intercalate "," errorMessages
      if errs != "" || msgs != "" then CreateOutcome.createError (errs ++ msgs)
      else CreateOutcome.ok (.dict errors errorMessages key)
    | .str s => CreateOutcome.ok (.str s)

/-- A component of a Jira project, as listed by `get_project_components`. -/
structure ProjectComponent where
  name : String
  id : String
deriving DecidableEq, Repr

/-- The matching loop of `JiraService.update_issue_components`: walk the
project components, and for each whose name is still in the missing set,
record its id and remove the name from the missing set. -/
def componentsLoop : List ProjectComponent → Finset String → List String →
    List String × Finset String
  | [], missing, acc => (acc, missing)
  | comp :: rest, missing, acc =>
    if comp.name ∈ missing then
      componentsLoop rest (missing.erase comp.name) (acc ++ [comp.id])
    else
      componentsLoop rest missing acc

/-- `JiraService.update_issue_components`: start with the requested names as
the missing set, match them against the components of the project (the list
`get_project_components(project)` returns, passed in as
`all_project_components`), and issue the issue-update call only when at
least one component matched.  Returns the optional response and the names
that did not match. -/
def update_issue_components (issue_key : String) (project : String)
    (components : List String)
    (all_project_components : List ProjectComponent) :
    Option RemoteCall × Finset String :=
  let r := componentsLoop all_project_components components.toFinset []
  let jira_components := r.1
  let missing_components := r.2
  if jira_components = [] then
    (none, missing_components)
  else
    (some (RemoteCall.updateComponents issue_key jira_components),
      missing_components)

/-! ### Step-level lemmas -/

lemma guard_op_eq_ignore (b1 b2 : Bool) (op : Operation)
    (h : (b1 || b2 || (op != Operation.IGNORE)) = false) :
    op = Operation.IGNORE := by
  revert h
  cases op <;> cases b1 <;> cases b2 <;> decide

lemma maybe_create_comment_fst (ctx : ActionContext) :
    (maybe_create_comment ctx).1 = ctx ∨
      (maybe_create_comment ctx).1 = { ctx with operation := Operation.COMMENT } := by
  unfold maybe_create_comment
  split
  · exact Or.inl rfl
  · split
    · exact Or.inl rfl
    · exact Or.inr rfl

lemma maybe_create_issue_op (s : Bool) (w : World) (ctx : ActionContext) :
    (maybe_create_issue s w ctx).1.operation = ctx.operation ∨
      (ctx.operation = Operation.IGNORE ∧
        (maybe_create_issue s w ctx).1.operation = Operation.CREATE) := by
  unfold maybe_create_issue
  split
  · exact Or.inl rfl
  · rename_i h
    have hop : ctx.operation = Operation.IGNORE :=
      guard_op_eq_ignore _ _ _ (Bool.eq_false_iff.mpr h)
    refine Or.inr ⟨hop, ?_⟩
    dsimp only
    split <;> rfl

lemma maybe_update_issue_op (s : Bool) (ctx : ActionContext) :
    (maybe_update_issue s ctx).1.operation = ctx.operation ∨
      (ctx.operation = Operation.IGNORE ∧
        (maybe_update_issue s ctx).1.operation = Operation.UPDATE) := by
  unfold maybe_update_issue
  split
  · exact Or.inl rfl
  · rename_i h
    have hop : ctx.operation = Operation.IGNORE :=
      guard_op_eq_ignore _ _ _ (Bool.eq_false_iff.mpr h)
    exact Or.inr ⟨hop, rfl⟩

lemma maybe_add_comments_fst (ctx : ActionContext) :
    (maybe_add_jira_comments_for_changes ctx).1 = ctx := by
  unfold maybe_add_jira_comments_for_changes
  split <;> rfl

/-! ### C1 -/

/-- C1: in every pipeline run, the operation starts at IGNORE and is advanced
away from IGNORE at most once, never reclassified between non-IGNORE values;
the final operation of the run is never DELETE or LINK (those appear only in
transient log snapshots, which assign no context). -/
theorem operation_advances_at_most_once (pk : String) (sync : Bool)
    (bug : BugzillaBug) (event : BugzillaWebhookEvent) (w : World) :
    advancesAtMostOnce Operation.IGNORE
        (runPipeline pk sync bug event w).opsTrace = true ∧
      (runPipeline pk sync bug event w).finalCtx.operation ≠ Operation.DELETE ∧
      (runPipeline pk sync bug event w).finalCtx.operation ≠ Operation.LINK := by
  have h0 : (initialContext pk bug event).operation = Operation.IGNORE := rfl
  simp only [runPipeline, maybe_add_comments_fst]
  have H1 : (maybe_create_comment (initialContext pk bug event)).1.operation
        = Operation.IGNORE ∨
      (maybe_create_comment (initialContext pk bug event)).1.operation
        = Operation.COMMENT := by
    obtain h | h := maybe_create_comment_fst (initialContext pk bug event)
    · rw [h]; exact Or.inl h0
    · rw [h]; exact Or.inr rfl
  obtain H1 | H1 := H1
  · obtain H2 | ⟨_, H2⟩ :=
      maybe_create_issue_op sync w (maybe_create_comment (initialContext pk bug event)).1
    · rw [H1] at H2
      obtain H3 | ⟨_, H3⟩ := maybe_update_issue_op sync
        (maybe_create_issue sync w (maybe_create_comment (initialContext pk bug event)).1).1
      · rw [H2] at H3
        rw [H1, H2, H3]
        exact ⟨rfl, by decide, by decide⟩
      · rw [H1, H2, H3]
        exact ⟨rfl, by decide, by decide⟩
    · obtain H3 | ⟨H3i, _⟩ := maybe_update_issue_op sync
        (maybe_create_issue sync w (maybe_create_comment (initialContext pk bug event)).1).1
      · rw [H2] at H3
        rw [H1, H2, H3]
        exact ⟨rfl, by decide, by decide⟩
      · rw [H2] at H3i
        exact absurd H3i (by decide)
  · obtain H2 | ⟨H2i, _⟩ :=
      maybe_create_issue_op sync w (maybe_create_comment (initialContext pk bug event)).1
    · rw [H1] at H2
      obtain H3 | ⟨H3i, _⟩ := maybe_update_issue_op sync
        (maybe_create_issue sync w (maybe_create_comment (initialContext pk bug event)).1).1
      · rw [H2] at H3
        rw [H1, H2, H3]
        exact ⟨rfl, by decide, by decide⟩
      · rw [H2] at H3i
        exact absurd H3i (by decide)
    · rw [H1] at H2i
      exact absurd H2i (by decide)

lemma maybe_create_comment_noop (ctx : ActionContext)
    (h : (ctx.event.target != "comment" || !(optTruthy ctx.jira.issue)) = true) :
    maybe_create_comment ctx = (ctx, [], []) := by
  unfold maybe_create_comment
  rw [if_pos h]

lemma maybe_create_comment_noop_no_comment (ctx : ActionContext)
    (h : ctx.bug.comment = none) :
    maybe_create_comment ctx = (ctx, [], []) := by
  unfold maybe_create_comment
  split
  · rfl
  · simp [h]

lemma maybe_create_issue_noop (s : Bool) (w : World) (ctx : ActionContext)
    (h : (ctx.event.target != "bug" || optTruthy ctx.jira.issue
      || ctx.operation != Operation.IGNORE) = true) :
    maybe_create_issue s w ctx = (ctx, [], []) := by
  unfold maybe_create_issue
  rw [if_pos h]

lemma maybe_update_issue_noop (s : Bool) (ctx : ActionContext)
    (h : (ctx.event.target != "bug" || !(optTruthy ctx.jira.issue)
      || ctx.operation != Operation.IGNORE) = true) :
    maybe_update_issue s ctx = (ctx, [], []) := by
  unfold maybe_update_issue
  rw [if_pos h]

lemma maybe_update_issue_fires (s : Bool) (ctx : ActionContext)
    (hT : ctx.event.target = "bug") (hI : optTruthy ctx.jira.issue = true)
    (hO : ctx.operation = Operation.IGNORE) :
    maybe_update_issue s ctx =
      ({ ctx with
          operation := Operation.UPDATE,
          extra_changed_fields :=
            String.intercalate ", " ((ctx.event.changed_fields).getD []) },
        [RemoteCall.updateIssue (ctx.jira.issue.getD "") s],
        [RemoteCall.updateIssue (ctx.jira.issue.getD "") s]) := by
  unfold maybe_update_issue
  rw [if_neg (by simp [hT, hI, hO])]

lemma maybe_add_comments_noop (ctx : ActionContext)
    (h : ctx.operation ≠ Operation.UPDATE) :
    maybe_add_jira_comments_for_changes ctx = (ctx, [], []) := by
  unfold maybe_add_jira_comments_for_changes
  rw [if_pos (by simp [h])]

lemma maybe_add_comments_fires (ctx : ActionContext)
    (h : ctx.operation = Operation.UPDATE) :
    maybe_add_jira_comments_for_changes ctx =
      (ctx, add_jira_comments_for_changes ctx,
        add_jira_comments_for_changes ctx) := by
  unfold maybe_add_jira_comments_for_changes
  rw [if_neg (by simp [h])]

lemma delete_if_duplicate_some (issue_key k : String) (b : BugzillaBug)
    (hk : b.linked_issue_key = some k) (hne : issue_key ≠ k) :
    delete_jira_issue_if_duplicate issue_key b =
      some (RemoteCall.deleteIssue issue_key) := by
  unfold delete_jira_issue_if_duplicate
  simp [hk, hne]

lemma delete_if_duplicate_none (issue_key : String) (b : BugzillaBug)
    (hk : b.linked_issue_key = none ∨ b.linked_issue_key = some issue_key) :
    delete_jira_issue_if_duplicate issue_key b = none := by
  unfold delete_jira_issue_if_duplicate
  rcases hk with hk | hk <;> simp [hk]

lemma maybe_create_issue_fires_dup (s : Bool) (w : World) (ctx : ActionContext)
    (hT : ctx.event.target = "bug") (hI : optTruthy ctx.jira.issue = false)
    (hO : ctx.operation = Operation.IGNORE)
    (k : String) (hk : w.refetched_bug.linked_issue_key = some k)
    (hne : w.created_key ≠ k) :
    maybe_create_issue s w ctx =
      ({ ctx with
          operation := Operation.CREATE,
          jira := { issue := some w.created_key, project := ctx.jira.project } },
        [RemoteCall.deleteIssue w.created_key],
        [RemoteCall.getComments ctx.bug.id,
         RemoteCall.createIssue ctx.jira.project ctx.bug.summary
           (truncateDescription ((w.comments.head?).getD "")) s,
         RemoteCall.getBug ctx.bug.id,
         RemoteCall.deleteIssue w.created_key]) := by
  unfold maybe_create_issue
  rw [if_neg (by simp [hT, hI, hO])]
  dsimp only
  rw [delete_if_duplicate_some w.created_key k w.refetched_bug hk hne]
  rfl

lemma maybe_create_issue_fires_clean (s : Bool) (w : World) (ctx : ActionContext)
    (hT : ctx.event.target = "bug") (hI : optTruthy ctx.jira.issue = false)
    (hO : ctx.operation = Operation.IGNORE)
    (hk : w.refetched_bug.linked_issue_key = none ∨
      w.refetched_bug.linked_issue_key = some w.created_key) :
    maybe_create_issue s w ctx =
      ({ ctx with
          operation := Operation.CREATE,
          jira := { issue := some w.created_key, project := ctx.jira.project } },
        [RemoteCall.addLinkToJira ctx.bug.id w.created_key,
         RemoteCall.addLinkToBugzilla w.created_key ctx.bug.id],
        [RemoteCall.getComments ctx.bug.id,
         RemoteCall.createIssue ctx.jira.project ctx.bug.summary
           (truncateDescription ((w.comments.head?).getD "")) s,
         RemoteCall.getBug ctx.bug.id,
         RemoteCall.addLinkToJira ctx.bug.id w.created_key,
         RemoteCall.addLinkToBugzilla w.created_key ctx.bug.id]) := by
  unfold maybe_create_issue
  rw [if_neg (by simp [hT, hI, hO])]
  dsimp only
  rw [delete_if_duplicate_none w.created_key w.refetched_bug hk]
  rfl

lemma add_comments_no_create (ctx : ActionContext) :
    ∀ c ∈ add_jira_comments_for_changes ctx, c.isCreateIssue = false := by
  intro c hc
  unfold add_jira_comments_for_changes at hc
  simp only [List.mem_map] at hc
  obtain ⟨x, -, rfl⟩ := hc
  rfl

/-! ### C2 -/

/-- C2: for every bug whose see-also list already encodes a linked issue key
and every event targeting the bug, the pipeline advances the operation to
UPDATE (category existing) and the create step performs no effect and issues
no create call.  The statement is universally quantified over the inputs, so
it holds identically on every re-run with the same inputs. -/
theorem linked_bug_event_classified_existing (pk : String) (sync : Bool)
    (bug : BugzillaBug) (event : BugzillaWebhookEvent) (w : World)
    (hT : event.target = "bug") (hL : optTruthy bug.linked_issue_key = true) :
    (runPipeline pk sync bug event w).finalCtx.operation = Operation.UPDATE ∧
      (runPipeline pk sync bug event w).createResponses = [] ∧
      ∀ c ∈ (runPipeline pk sync bug event w).calls,
        c.isCreateIssue = false := by
  have h1 : maybe_create_comment (initialContext pk bug event) =
      (initialContext pk bug event, [], []) :=
    maybe_create_comment_noop _ (by simp [initialContext, hT])
  have h2 : maybe_create_issue sync w (initialContext pk bug event) =
      (initialContext pk bug event, [], []) :=
    maybe_create_issue_noop _ _ _ (by simp [initialContext, hL])
  have h3 := maybe_update_issue_fires sync (initialContext pk bug event) hT hL rfl
  have h4 := maybe_add_comments_fires
    ({ initialContext pk bug event with
        operation := Operation.UPDATE,
        extra_changed_fields := String.intercalate ", "
          (((initialContext pk bug event).event.changed_fields).getD []) }) rfl
  refine ⟨?_, ?_, ?_⟩
  · simp only [runPipeline, h1, h2, h3, h4]
  · simp only [runPipeline, h1, h2, h3, h4]
  · simp only [runPipeline, h1, h2, h3, h4]
    intro c hc
    simp only [List.mem_append, List.nil_append, List.mem_singleton,
      List.append_nil, List.mem_cons, List.not_mem_nil, or_false] at hc
    rcases hc with hc | hc
    · rw [hc]; rfl
    · exact add_comments_no_create _ c hc

/-! ### C5 -/

/-- C5: a pipeline run returns handled = false exactly when the final
operation is still IGNORE; in particular a comment-target event whose bug
carries no comment payload yields handled = false with zero responses. -/
theorem handled_iff_not_ignore (pk : String) (sync : Bool) (bug : BugzillaBug)
    (event : BugzillaWebhookEvent) (w : World) :
    ((runPipeline pk sync bug event w).handled = false ↔
      (runPipeline pk sync bug event w).finalCtx.operation = Operation.IGNORE) ∧
    (event.target = "comment" → bug.comment = none →
      (runPipeline pk sync bug event w).handled = false ∧
      (runPipeline pk sync bug event w).responses = []) := by
  constructor
  · simp [runPipeline]
  · intro hT hC
    have h1 : maybe_create_comment (initialContext pk bug event) =
        (initialContext pk bug event, [], []) :=
      maybe_create_comment_noop_no_comment _ hC
    have h2 : maybe_create_issue sync w (initialContext pk bug event) =
        (initialContext pk bug event, [], []) :=
      maybe_create_issue_noop _ _ _ (by simp [initialContext, hT])
    have h3 : maybe_update_issue sync (initialContext pk bug event) =
        (initialContext pk bug event, [], []) :=
      maybe_update_issue_noop _ _ (by simp [initialContext, hT])
    have h4 : maybe_add_jira_comments_for_changes (initialContext pk bug event) =
        (initialContext pk bug event, [], []) :=
      maybe_add_comments_noop (initialContext pk bug event) (by simp [initialContext])
    simp [runPipeline, h1, h2, h3, h4]
    rfl

/-- A bug already linked to issue JBI-3 through its see-also list. -/
def bugLinked : BugzillaBug :=
  { id := 2, summary := "existing bug", status := "NEW", resolution := ""
    assigned_to := "nobody", whiteboard := "", comment := none
    linked_issue_key := some "JBI-3" }

/-- A comment-target event with no acting user. -/
def eventComment : BugzillaWebhookEvent :=
  { target := "comment", user := none, changes := none }

/-! ### C3 -/

/-- C3: on every creation run the bug is re-fetched after the create call;
the just-created issue is deleted iff the re-fetched bug encodes a non-null
key different from the created one; on deletion the link steps are skipped
and the run returns only the delete response; otherwise no deletion happens
and both link calls are issued. -/
theorem duplicate_rollback_protocol (pk : String) (sync : Bool)
    (bug : BugzillaBug) (event : BugzillaWebhookEvent) (w : World)
    (hT : event.target = "bug") (hL : optTruthy bug.linked_issue_key = false) :
    RemoteCall.getBug bug.id ∈ (runPipeline pk sync bug event w).calls ∧
    ((RemoteCall.deleteIssue w.created_key ∈ (runPipeline pk sync bug event w).calls) ↔
      ∃ k, w.refetched_bug.linked_issue_key = some k ∧ k ≠ w.created_key) ∧
    (∀ k, w.refetched_bug.linked_issue_key = some k → k ≠ w.created_key →
      (runPipeline pk sync bug event w).responses =
          [RemoteCall.deleteIssue w.created_key] ∧
        RemoteCall.addLinkToJira bug.id w.created_key ∉
          (runPipeline pk sync bug event w).calls ∧
        RemoteCall.addLinkToBugzilla w.created_key bug.id ∉
          (runPipeline pk sync bug event w).calls) ∧
    ((w.refetched_bug.linked_issue_key = none ∨
        w.refetched_bug.linked_issue_key = some w.created_key) →
      RemoteCall.deleteIssue w.created_key ∉ (runPipeline pk sync bug event w).calls ∧
        RemoteCall.addLinkToJira bug.id w.created_key ∈
          (runPipeline pk sync bug event w).calls ∧
        RemoteCall.addLinkToBugzilla w.created_key bug.id ∈
          (runPipeline pk sync bug event w).calls) := by
  have h1 : maybe_create_comment (initialContext pk bug event) =
      (initialContext pk bug event, [], []) :=
    maybe_create_comment_noop _ (by simp [initialContext, hT])
  rcases hcase : w.refetched_bug.linked_issue_key with _ | k
  · have h2 := maybe_create_issue_fires_clean sync w (initialContext pk bug event)
      hT hL rfl (Or.inl hcase)
    have h3 : maybe_update_issue sync
        ({ initialContext pk bug event with
            operation := Operation.CREATE,
            jira := { issue := some w.created_key, project := pk } }) =
        ({ initialContext pk bug event with
            operation := Operation.CREATE,
            jira := { issue := some w.created_key, project := pk } }, [], []) :=
      maybe_update_issue_noop _ _ (by simp)
    have h4 := maybe_add_comments_noop
      ({ initialContext pk bug event with
          operation := Operation.CREATE,
          jira := { issue := some w.created_key, project := pk } }) (by simp)
    simp only [initialContext] at h1 h2 h3 h4
    simp only [runPipeline, initialContext, h1, h2, h3, h4]
    simp [hcase]
  · by_cases hkey : k = w.created_key
    · have h2 := maybe_create_issue_fires_clean sync w (initialContext pk bug event)
        hT hL rfl (Or.inr (hkey ▸ hcase))
      have h3 : maybe_update_issue sync
          ({ initialContext pk bug event with
              operation := Operation.CREATE,
              jira := { issue := some w.created_key, project := pk } }) =
          ({ initialContext pk bug event with
              operation := Operation.CREATE,
              jira := { issue := some w.created_key, project := pk } }, [], []) :=
        maybe_update_issue_noop _ _ (by simp)
      have h4 := maybe_add_comments_noop
        ({ initialContext pk bug event with
            operation := Operation.CREATE,
            jira := { issue := some w.created_key, project := pk } }) (by simp)
      simp only [initialContext] at h1 h2 h3 h4
      simp only [runPipeline, initialContext, h1, h2, h3, h4]
      simp [hcase, hkey]
    · have h2 := maybe_create_issue_fires_dup sync w (initialContext pk bug event)
        hT hL rfl k hcase (fun h => hkey h.symm)
      have h3 : maybe_update_issue sync
          ({ initialContext pk bug event with
              operation := Operation.CREATE,
              jira := { issue := some w.created_key, project := pk } }) =
          ({ initialContext pk bug event with
              operation := Operation.CREATE,
              jira := { issue := some w.created_key, project := pk } }, [], []) :=
        maybe_update_issue_noop _ _ (by simp)
      have h4 := maybe_add_comments_noop
        ({ initialContext pk bug event with
            operation := Operation.CREATE,
            jira := { issue := some w.created_key, project := pk } }) (by simp)
      simp only [initialContext] at h1 h2 h3 h4
      simp only [runPipeline, initialContext, h1, h2, h3, h4]
      simp [hcase, hkey]

/-- Concrete fixtures: a fresh bug (no linked issue, no comment payload), a
bug-target event, and worlds for the clean and duplicate creation runs. -/
def bugC6 : BugzillaBug :=
  { id := 1, summary := "crash on startup", status := "NEW", resolution := ""
    assigned_to := "nobody", whiteboard := "", comment := none
    linked_issue_key := none }

def eventC6 : BugzillaWebhookEvent :=
  { target := "bug", user := some "reporter", changes := some [] }

def worldC6 : World :=
  { comments := ["first comment"], created_key := "JBI-7"
    refetched_bug := { bugC6 with linked_issue_key := some "JBI-7" } }

def worldC3 : World :=
  { comments := [], created_key := "JBI-9"
    refetched_bug := { bugC6 with linked_issue_key := some "JBI-2" } }

/-- C2 witness: the concrete linked bug with a bug-target event is classified
as existing (operation UPDATE). -/
theorem linked_bug_event_classified_existing_witness :
    (runPipeline "JBI" true bugLinked eventC6 worldC6).finalCtx.operation =
      Operation.UPDATE :=
  (linked_bug_event_classified_existing "JBI" true bugLinked eventC6 worldC6
    rfl rfl).1

/-- C5 witness: the concrete comment-target event on a bug without a comment
payload yields handled = false and no responses. -/
theorem handled_iff_not_ignore_witness :
    (runPipeline "JBI" true bugC6 eventComment worldC6).handled = false ∧
    (runPipeline "JBI" true bugC6 eventComment worldC6).responses = [] :=
  (handled_iff_not_ignore "JBI" true bugC6 eventComment worldC6).2 rfl rfl

/-- C3 witness: a creation run that lost the race (re-fetched key JBI-2,
created key JBI-9) returns only the delete response. -/
theorem duplicate_rollback_protocol_witness :
    (runPipeline "JBI" true bugC6 eventC6 worldC3).responses =
      [RemoteCall.deleteIssue "JBI-9"] := by
  have h := duplicate_rollback_protocol "JBI" true bugC6 eventC6 worldC3 rfl rfl
  exact (h.2.2.1 "JBI-2" rfl (by decide)).1

/-! ### C6 (corrected) -/

/-- C6 counterexample: a clean creation run (bug-target event, no linked
issue, label sync enabled, no duplicate) returns handled = true with exactly
TWO responses, not the three responses (create, link-source, link-target) the
claim states. -/
theorem create_run_responses_not_three :
    (runPipeline "JBI" true bugC6 eventC6 worldC6).handled = true ∧
    (runPipeline "JBI" true bugC6 eventC6 worldC6).responses.length = 2 ∧
    ¬ (runPipeline "JBI" true bugC6 eventC6 worldC6).responses.length = 3 := by
  decide

/-- C6 amended: for every bug-target event on a record with no linked issue
and label sync enabled, when the create path runs without a duplicate being
detected, the pipeline returns handled = true and exactly 2 responses in the
order (link-on-source, link-on-target); the create call is issued but its
return value becomes the linked issue key instead of an accumulated
response. -/
theorem create_run_two_link_responses (pk : String) (bug : BugzillaBug)
    (event : BugzillaWebhookEvent) (w : World)
    (hT : event.target = "bug") (hL : optTruthy bug.linked_issue_key = false)
    (hND : w.refetched_bug.linked_issue_key = none ∨
      w.refetched_bug.linked_issue_key = some w.created_key) :
    (runPipeline pk true bug event w).handled = true ∧
    (runPipeline pk true bug event w).responses =
      [RemoteCall.addLinkToJira bug.id w.created_key,
       RemoteCall.addLinkToBugzilla w.created_key bug.id] ∧
    RemoteCall.createIssue pk bug.summary
        (truncateDescription ((w.comments.head?).getD "")) true
      ∈ (runPipeline pk true bug event w).calls := by
  have h1 : maybe_create_comment (initialContext pk bug event) =
      (initialContext pk bug event, [], []) :=
    maybe_create_comment_noop _ (by simp [initialContext, hT])
  have h2 := maybe_create_issue_fires_clean true w (initialContext pk bug event)
    hT hL rfl hND
  have h3 : maybe_update_issue true
      ({ initialContext pk bug event with
          operation := Operation.CREATE,
          jira := { issue := some w.created_key, project := pk } }) =
      ({ initialContext pk bug event with
          operation := Operation.CREATE,
          jira := { issue := some w.created_key, project := pk } }, [], []) :=
    maybe_update_issue_noop _ _ (by simp)
  have h4 := maybe_add_comments_noop
    ({ initialContext pk bug event with
        operation := Operation.CREATE,
        jira := { issue := some w.created_key, project := pk } }) (by simp)
  simp only [initialContext] at h1 h2 h3 h4
  simp only [runPipeline, initialContext, h1, h2, h3, h4]
  simp

/-- C6 amended witness: the concrete clean creation run yields the two link
responses in order. -/
theorem create_run_two_link_responses_witness :
    (runPipeline "JBI" true bugC6 eventC6 worldC6).responses =
      [RemoteCall.addLinkToJira 1 "JBI-7",
       RemoteCall.addLinkToBugzilla "JBI-7" 1] := by
  have h := create_run_two_link_responses "JBI" bugC6 eventC6 worldC6 rfl rfl
    (Or.inr rfl)
  exact h.2.1

/-! ### C4 -/

lemma retryLoop_const_error {α : Type} (e : RemoteError)
    (hf : fatal_code e = false) (attempt fuel : Nat) :
    retryLoop (fun _ => (Except.error e : Except RemoteError α)) attempt fuel =
      (Except.error e, attempt + fuel + 1) := by
  induction fuel generalizing attempt with
  | zero =>
    unfold retryLoop
    simp [hf]
  | succ n ih =>
    unfold retryLoop
    simp only [hf, Bool.false_eq_true, if_false]
    rw [ih (attempt + 1)]
    simp
    omega

/-- C4: `fatal_code` classifies an error fatal exactly when it carries a
response status in [400, 500); errors with no response attribute are
transient.  Under the (spec-modelled) retry wrapper, a constant 503 failure
is attempted exactly the configured number of times and then surfaced, and a
404 is surfaced after exactly one attempt (zero retries). -/
theorem fatal_code_spec (e : RemoteError) (maxTries : Nat) (hM : 1 ≤ maxTries) :
    (fatal_code e = true ↔ ∃ s, e.status = some s ∧ 400 ≤ s ∧ s < 500) ∧
    (e.status = none → fatal_code e = false) ∧
    (runWithRetry maxTries
        (fun _ => (Except.error ⟨some 503⟩ : Except RemoteError Unit)) =
      (Except.error ⟨some 503⟩, maxTries)) ∧
    (runWithRetry maxTries
        (fun _ => (Except.error ⟨some 404⟩ : Except RemoteError Unit)) =
      (Except.error ⟨some 404⟩, 1)) := by
  refine ⟨?_, ?_, ?_, ?_⟩
  · unfold fatal_code
    rcases hs : e.status with _ | s
    · simp
    · simp [Bool.and_eq_true, decide_eq_true_iff]
  · intro h
    unfold fatal_code
    rw [h]
  · unfold runWithRetry
    rw [retryLoop_const_error ⟨some 503⟩ (by decide) 0 (maxTries - 1)]
    simp
    omega
  · unfold runWithRetry
    unfold retryLoop
    norm_num [fatal_code]

/-- C4 witness: at a concrete 404 error and a three-attempt budget, the error
is fatal and surfaced after one attempt. -/
theorem fatal_code_spec_witness :
    fatal_code ⟨some 404⟩ = true ∧
    runWithRetry 3 (fun _ => (Except.error ⟨some 404⟩ : Except RemoteError Unit)) =
      (Except.error ⟨some 404⟩, 1) := by
  have h := fatal_code_spec ⟨some 404⟩ 3 (by decide)
  exact ⟨h.1.mpr ⟨404, rfl, by decide, by decide⟩, h.2.2.2⟩

/-! ### C7 -/

/-- C7: the description sent on issue creation is the original string when it
is within the field limit, is always a character prefix of the original, and
is cut to exactly the limit when the original is longer; it is never
rejected (the field is always built). -/
theorem description_truncation (ctx : ActionContext) (d : String)
    (t : String) :
    (d.length ≤ JIRA_DESCRIPTION_CHAR_LIMIT →
      (create_issue_fields ctx d t).description = d) ∧
    (create_issue_fields ctx d t).description.data <+: d.data ∧
    (JIRA_DESCRIPTION_CHAR_LIMIT < d.length →
      (create_issue_fields ctx d t).description.length =
        JIRA_DESCRIPTION_CHAR_LIMIT) := by
  refine ⟨?_, ?_, ?_⟩
  · intro h
    show truncateDescription d = d
    unfold truncateDescription
    rw [List.take_of_length_le h]
  · show (truncateDescription d).data <+: d.data
    unfold truncateDescription
    exact List.take_prefix _ _
  · intro h
    show (truncateDescription d).length = JIRA_DESCRIPTION_CHAR_LIMIT
    unfold truncateDescription
    show (d.data.take JIRA_DESCRIPTION_CHAR_LIMIT).length = _
    rw [List.length_take]
    exact min_eq_left (Nat.le_of_lt h)

/-- C7 witness: a short description is sent unchanged, an over-long one is
cut to exactly the limit. -/
theorem description_truncation_witness :
    (create_issue_fields (initialContext "JBI" bugC6 eventC6) "short text"
        "Task").description = "short text" ∧
    (create_issue_fields (initialContext "JBI" bugC6 eventC6)
        ⟨List.replicate 40000 'a'⟩ "Task").description.length =
      JIRA_DESCRIPTION_CHAR_LIMIT := by
  constructor
  · exact (description_truncation (initialContext "JBI" bugC6 eventC6)
      "short text" "Task").1 (by decide)
  · refine (description_truncation (initialContext "JBI" bugC6 eventC6)
      ⟨List.replicate 40000 'a'⟩ "Task").2.2 ?_
    show JIRA_DESCRIPTION_CHAR_LIMIT < (List.replicate 40000 'a').length
    rw [List.length_replicate]
    norm_num [JIRA_DESCRIPTION_CHAR_LIMIT]

/-! ### C8 (corrected) -/

/-- C8 counterexample: the payload whose `errors` list is the non-empty list
containing one empty string does NOT raise `JiraCreateError` (the comma-join
is empty), contradicting the claim that any non-empty error list raises. -/
theorem create_error_payload_counterexample :
    ([""] : List String) ≠ [] ∧
    processCreateResponse (JiraPayload.item (JiraItem.dict [""] [] "X")) =
      CreateOutcome.ok (JiraItem.dict [""] [] "X") := by
  constructor
  · decide
  · rfl

/-- C8 amended: `create_jira_issue` raises `JiraCreateError` iff the
comma-join of the `errors` list or of the `errorMessages` list of the payload
dict (the dict itself, or the first element when a list is returned) is a
non-empty string; otherwise the response payload is returned as the new issue
key. -/
theorem create_error_iff_joined_nonempty (errors errorMessages : List String)
    (key s : String) (rest : List JiraItem) :
    ((processCreateResponse (.item (.dict errors errorMessages key))).isCreateError
        = true ↔
      (String.intercalate "," errors ≠ "" ∨
        String.intercalate "," errorMessages ≠ "")) ∧
    processCreateResponse (.list (.dict errors errorMessages key :: rest)) =
      processCreateResponse (.item (.dict errors errorMessages key)) ∧
    processCreateResponse (.item (.str s)) = CreateOutcome.ok (.str s) ∧
    ((String.intercalate "," errors = "" ∧
        String.intercalate "," errorMessages = "") →
      processCreateResponse (.item (.dict errors errorMessages key)) =
        CreateOutcome.ok (.dict errors errorMessages key)) := by
  refine ⟨?_, rfl, rfl, ?_⟩
  · by_cases he : String.intercalate "," errors = "" <;>
      by_cases hm : String.intercalate "," errorMessages = "" <;>
      simp [processCreateResponse, CreateOutcome.isCreateError, he, hm]
  · rintro ⟨he, hm⟩
    simp [processCreateResponse, he, hm]

/-- C8 amended witness: a payload with a real error message raises, a clean
dict payload is returned unchanged. -/
theorem create_error_iff_joined_nonempty_witness :
    (processCreateResponse (.item (.dict ["boom"] [] "X"))).isCreateError
      = true ∧
    processCreateResponse (.item (.dict [] [] "OK")) =
      CreateOutcome.ok (.dict [] [] "OK") := by
  have h1 := create_error_iff_joined_nonempty ["boom"] [] "X" "s" []
  have h2 := create_error_iff_joined_nonempty ([] : List String) [] "OK" "s" []
  exact ⟨h1.1.mpr (Or.inl (by decide)), h2.2.2.2 ⟨rfl, rfl⟩⟩

/-! ### C9 -/

/-- A change is relevant for change comments when its field is a
status/resolution field or an assignee field. -/
def relevantChange (c : BugChange) : Bool :=
  c.field == "status" || c.field == "resolution" ||
    c.field == "assigned_to" || c.field == "assignee"

/-- The comment body posted for one relevant change. -/
def commentForChange (bug : BugzillaBug) (user : String)
    (c : BugChange) : ChangeComment :=
  if c.field == "status" || c.field == "resolution" then
    ChangeComment.statusChange user bug.resolution bug.status
  else
    ChangeComment.assigneeChange bug.assigned_to

lemma commentsForChanges_eq (bug : BugzillaBug) (user : String)
    (changes : List BugChange) :
    commentsForChanges bug user changes =
      (changes.filter relevantChange).map (commentForChange bug user) := by
  induction changes with
  | nil => rfl
  | cons c rest ih =>
    unfold commentsForChanges at ih ⊢
    rw [List.flatMap_cons, ih, List.filter_cons]
    by_cases h1 : c.field = "status" ∨ c.field = "resolution"
    · have h2 : ¬(c.field = "assigned_to" ∨ c.field = "assignee") := by
        rcases h1 with h | h <;> rw [h] <;> decide
      have hrel : relevantChange c = true := by
        unfold relevantChange
        rcases h1 with h | h <;> simp [h]
      have hcc : commentForChange bug user c =
          ChangeComment.statusChange user bug.resolution bug.status := by
        unfold commentForChange
        rcases h1 with h | h <;> simp [h]
      rw [if_pos h1, if_neg h2, hrel]
      simp [hcc]
    · by_cases h2 : c.field = "assigned_to" ∨ c.field = "assignee"
      · have hrel : relevantChange c = true := by
          unfold relevantChange
          rcases h2 with h | h <;> simp [h]
        have hcond : (c.field == "status" || c.field == "resolution")
            = false := by
          push_neg at h1
          simp [h1.1, h1.2]
        have hcc : commentForChange bug user c =
            ChangeComment.assigneeChange bug.assigned_to := by
          unfold commentForChange
          rw [hcond]
          rfl
        rw [if_neg h1, if_pos h2, hrel]
        simp [hcc]
      · have hrel : relevantChange c = false := by
          unfold relevantChange
          push_neg at h1 h2
          simp [h1.1, h1.2, h2.1, h2.2]
        rw [if_neg h1, if_neg h2, hrel]
        simp

/-- C9: the change-comment step runs only when the operation is UPDATE, and
then posts exactly one structured comment per change whose field is a
status/resolution or assignee field (zero for any other field), in event
change order, accumulating the responses in call order. -/
theorem comments_for_changes_spec (ctx : ActionContext) :
    (ctx.operation ≠ Operation.UPDATE →
      maybe_add_jira_comments_for_changes ctx = (ctx, [], [])) ∧
    (ctx.operation = Operation.UPDATE →
      (maybe_add_jira_comments_for_changes ctx).2.1 =
        (((ctx.event.changes).getD []).filter relevantChange).map
          (fun c => RemoteCall.addChangeComment (ctx.jira.issue.getD "")
            (commentForChange ctx.bug (ctx.event.user.getD "unknown") c))) := by
  constructor
  · exact maybe_add_comments_noop ctx
  · intro h
    rw [maybe_add_comments_fires ctx h]
    show add_jira_comments_for_changes ctx = _
    unfold add_jira_comments_for_changes
    dsimp only
    rw [commentsForChanges_eq, List.map_map]
    rfl

/-- Concrete fixture for the change-comment step: an UPDATE-operation context
with a status change, an irrelevant priority change, and an assignee
change. -/
def ctxC9 : ActionContext :=
  { event :=
      { target := "bug", user := some "alice"
        changes := some
          [{ field := "status", added := "RESOLVED", removed := "NEW" },
           { field := "priority", added := "P1", removed := "P2" },
           { field := "assigned_to", added := "bob", removed := "" }] }
    bug := { bugC6 with
      resolution := "FIXED", status := "RESOLVED", assigned_to := "bob" }
    operation := Operation.UPDATE
    jira := { issue := some "JBI-1", project := "JBI" }
    extra_changed_fields := "" }

/-- C9 witness: on the concrete context the step posts exactly two comments,
for the status change and the assignee change, in change order. -/
theorem comments_for_changes_spec_witness :
    (maybe_add_jira_comments_for_changes ctxC9).2.1 =
      [RemoteCall.addChangeComment "JBI-1"
        (ChangeComment.statusChange "alice" "FIXED" "RESOLVED"),
       RemoteCall.addChangeComment "JBI-1"
        (ChangeComment.assigneeChange "bob")] := by
  have h := (comments_for_changes_spec ctxC9).2 rfl
  rw [h]
  rfl

/-! ### C10 -/

lemma componentsLoop_missing (l : List ProjectComponent)
    (missing : Finset String) (acc : List String) :
    (componentsLoop l missing acc).2 =
      missing \ (l.map (·.name)).toFinset := by
  induction l generalizing missing acc with
  | nil => simp [componentsLoop]
  | cons c rest ih =>
    unfold componentsLoop
    split
    · rename_i hmem
      rw [ih]
      ext x
      simp only [Finset.mem_sdiff, Finset.mem_erase, List.map_cons,
        List.toFinset_cons, Finset.mem_insert, List.mem_toFinset,
        List.mem_map, ne_eq, not_or, not_exists, not_and]
      constructor
      · rintro ⟨⟨hne, hx⟩, hr⟩
        exact ⟨hx, hne, hr⟩
      · rintro ⟨hx, hne, hr⟩
        exact ⟨⟨hne, hx⟩, hr⟩
    · rename_i hmem
      rw [ih]
      ext x
      simp only [Finset.mem_sdiff, List.map_cons, List.toFinset_cons,
        Finset.mem_insert, List.mem_toFinset, List.mem_map, not_or,
        not_exists, not_and]
      constructor
      · rintro ⟨hx, hr⟩
        exact ⟨hx, fun he => hmem (he ▸ hx), hr⟩
      · rintro ⟨hx, _, hr⟩
        exact ⟨hx, hr⟩

lemma componentsLoop_no_match : ∀ (l : List ProjectComponent)
    (missing : Finset String) (acc : List String),
    (∀ c ∈ l, c.name ∉ missing) →
    componentsLoop l missing acc = (acc, missing)
  | [], _, _, _ => rfl
  | c :: rest, missing, acc, h => by
    unfold componentsLoop
    rw [if_neg (h c (by simp))]
    exact componentsLoop_no_match rest missing acc
      (fun c' hc' => h c' (by simp [hc']))

/-- C10: `update_issue_components` returns as its missing set exactly the
requested names absent from the project component names; when no requested
name matches any project component it issues no issue-update call and returns
`None` with the full requested set. -/
theorem update_issue_components_spec (issue_key project : String)
    (components : List String) (all : List ProjectComponent) :
    (update_issue_components issue_key project components all).2 =
      components.toFinset \ (all.map (·.name)).toFinset ∧
    ((∀ c ∈ all, c.name ∉ components.toFinset) →
      update_issue_components issue_key project components all =
        (none, components.toFinset)) := by
  constructor
  · unfold update_issue_components
    dsimp only
    split <;> exact componentsLoop_missing all components.toFinset []
  · intro h
    unfold update_issue_components
    rw [componentsLoop_no_match all components.toFinset [] h]
    rfl

/-- C10 witness: requesting a component not present on the project issues no
update call and reports the component as missing. -/
theorem update_issue_components_spec_witness :
    update_issue_components "ABC-1" "PROJ" ["Backend"]
        [{ name := "Frontend", id := "10001" }] =
      (none, (["Backend"] : List String).toFinset) :=
  (update_issue_components_spec "ABC-1" "PROJ" ["Backend"]
    [{ name := "Frontend", id := "10001" }]).2 (by decide)

end JBI
